import Mathlib

/-!
Shallow embedding of
`src/command_modules/azure-cli-container/azure/cli/command_modules/container/_validators.py`
(input-validation callbacks for the `az container` command group), together
with proofs about the embedded validators.

Conventions of the embedding:
* Python strings are Lean `String`s; optional/absent values are `Option`.
* Python truthiness on optional strings (`if ns.field:`) is `truthy`.
* A raised exception is modelled by `Except PyErr`; `PyErr.cliError msg`
  is `knack.util.CLIError(msg)` and `PyErr.unicodeEncodeError` is the
  `UnicodeEncodeError` raised by `str.encode('ascii')` on non-ASCII input.
* The mutable argparse namespace is the record `Namespace`; a validator
  takes the namespace and returns the (possibly updated) namespace or an
  error.
* Library calls made by the source (`base64.b64encode`, `uuid.UUID`,
  `re.match`, `msrestazure.tools.is_valid_resource_id` / `resource_id`,
  the authorization client) are modelled by explicit Lean functions or by
  function parameters, as documented at each definition.
-/

namespace AzContainerValidators

/-- Exceptions that can escape the validators: `CLIError(msg)` raised by the
source itself, or the `UnicodeEncodeError` raised inside
`str.encode('ascii')` when the string has a code point above 127. -/
inductive PyErr : Type where
  | cliError (msg : String)
  | unicodeEncodeError
deriving DecidableEq

instance {ε α : Type} [DecidableEq ε] [DecidableEq α] : DecidableEq (Except ε α) := fun x y =>
  match x, y with
  | .ok a, .ok b => if h : a = b then .isTrue (by rw [h]) else .isFalse (by simp [h])
  | .error a, .error b => if h : a = b then .isTrue (by rw [h]) else .isFalse (by simp [h])
  | .ok _, .error _ => .isFalse (by simp)
  | .error _, .ok _ => .isFalse (by simp)

/-- Python truthiness of an optional string: `None` and `""` are falsy,
every other string is truthy. -/
def truthy : Option String → Bool
  | none => false
  | some s => s ≠ ""

/-- The RFC 4648 base64 alphabet, as used by `base64.b64encode`. -/
def base64Alphabet : List Char :=
  "ABCDEFGHIJKLMNOPQRSTUVWXYZabcdefghijklmnopqrstuvwxyz0123456789+/".toList

/-- The base64 digit for a 6-bit value. -/
def b64Char (n : Nat) : Char := base64Alphabet.getD n 'A'

/-- `base64.b64encode` on a byte string (each byte given as a `Nat < 256`),
producing the base64 character sequence with `'='` padding. -/
def b64encode : List Nat → List Char
  | [] => []
  | [a] => [b64Char (a / 4), b64Char (a % 4 * 16), '=', '=']
  | [a, b] => [b64Char (a / 4), b64Char (a % 4 * 16 + b / 16), b64Char (b % 16 * 4), '=']
  | a :: b :: c :: rest =>
      b64Char (a / 4) :: b64Char (a % 4 * 16 + b / 16) ::
        b64Char (b % 16 * 4 + c / 64) :: b64Char (c % 64) :: b64encode rest

/-- `str.encode('ascii')`: the list of code points when all are ASCII
(≤ 127), otherwise the `UnicodeEncodeError`. -/
def asciiEncode (s : String) : Except PyErr (List Nat) :=
  if s.data.all (fun c => c.toNat ≤ 127) then
    .ok (s.data.map Char.toNat)
  else
    .error .unicodeEncodeError

/-- `b64encode(v.encode('ascii')).decode('ascii')` as one step: the base64
string of an ASCII string (the `.decode('ascii')` always succeeds because
base64 output is ASCII). -/
def b64OfAscii (s : String) : Except PyErr String :=
  (asciiEncode s).map (fun bs => String.mk (b64encode bs))

/-- Python `string.split('=', 1)` restricted to what the source consumes:
`some (before, after)` at the first `'='`, `none` when no `'='` occurs
(in which case `split` returns the one-element list and the length test
in the source fails). -/
def splitFirstEq : List Char → Option (List Char × List Char)
  | [] => none
  | c :: rest =>
      if c = '=' then some ([], rest)
      else (splitFirstEq rest).map (fun p => (c :: p.1, p.2))

/-- An insertion-ordered association list standing for a Python `dict` with
string keys and values. -/
def SecretDict : Type := List (String × String)

/-- `d[k]` as an option: the value at the first (unique) entry with key `k`. -/
def dictLookup (d : List (String × String)) (k : String) : Option String :=
  (d.find? (fun p => p.1 = k)).map (fun p => p.2)

/-- Insertion of one key/value pair into a Python dict: overwrite in place
when the key is present, append otherwise (insertion order preserved). -/
def dictInsert (d : List (String × String)) (k v : String) : List (String × String) :=
  if d.any (fun p => p.1 = k) then
    d.map (fun p => if p.1 = k then (k, v) else p)
  else
    d ++ [(k, v)]

/-- Python `d.update(e)` for the one-entry or empty dicts produced by
`validate_secret`: fold `dictInsert` over the entries of `e`. -/
def dictUpdate (d e : List (String × String)) : List (String × String) :=
  e.foldl (fun acc p => dictInsert acc p.1 p.2) d

/-- The value of the `secrets` namespace field: not supplied, the raw list
of `"key=value"` tokens, or the dict the validator replaced it with
(`isinstance(ns.secrets, list)` is true exactly in the `toks` case). -/
inductive Secrets : Type where
  | unset
  | toks (items : List String)
  | smap (m : List (String × String))
deriving DecidableEq

/-- `validate_secret(string)`: empty/absent input gives the empty dict;
otherwise split on the first `'='`, failing with `CLIError` when there is
none, and return the one-entry dict mapping the key to the base64 of the
ASCII-encoded value. -/
def validate_secret (string : Option String) : Except PyErr (List (String × String)) :=
  if truthy string then
    let s := string.getD ""
    match splitFirstEq s.data with
    | none => .error (.cliError "Secrets need to be specifed in key=value format.")
    | some (k, v) =>
        match b64OfAscii (String.mk v) with
        | .error e => .error e
        | .ok enc => .ok [(String.mk k, enc)]
  else
    .ok []

/-- The loop of `validate_secrets`: starting from the accumulated dict,
run `secrets_dict.update(validate_secret(item))` over the remaining
tokens, propagating the first raised exception. -/
def secretsLoop (acc : List (String × String)) : List String → Except PyErr (List (String × String))
  | [] => .ok acc
  | t :: ts =>
      match validate_secret (some t) with
      | .error e => .error e
      | .ok r => secretsLoop (dictUpdate acc r) ts

/-- The dict `validate_secrets` builds from the token list (its loop run
from the empty dict). -/
def secretsOfTokens (ts : List String) : Except PyErr (List (String × String)) :=
  secretsLoop [] ts

/-- The `--role` argument: its string value, plus whether the object still
carries the CLI's default-value marker attribute (`is_default`), which
`getattr(namespace.identity_role, 'is_default', None) is None` probes:
`hasDefaultMarker = true` means the attribute is present (not `None`),
i.e. the user did not explicitly request a role. -/
structure IdentityRole : Type where
  value : String
  hasDefaultMarker : Bool
deriving DecidableEq

/-- The argparse namespace: one mutable record with the fields the
validators of this module read or write. -/
structure Namespace : Type where
  azure_file_volume_mount_path : Option String := none
  secrets : Secrets := .unset
  gitrepo_dir : Option String := none
  image : Option String := none
  command_line : Option String := none
  assign_identity : Option (List String) := none
  identity_scope : Option String := none
  identity_role : IdentityRole := ⟨"Contributor", true⟩
  identity_role_id : Option String := none
  vnet : Option String := none
  vnet_name : Option String := none
  subnet : Option String := none
  network_profile : Option String := none
  ip_address : Option String := none
  dns_name_label : Option String := none
  resource_group_name : String := ""
deriving DecidableEq

/-- `validate_volume_mount_path(ns)`: fail when the Azure-file volume mount
path is truthy and contains `':'`; otherwise pass with the namespace
untouched. -/
def validate_volume_mount_path (ns : Namespace) : Except PyErr Namespace :=
  if truthy ns.azure_file_volume_mount_path
      && (ns.azure_file_volume_mount_path.getD "").data.contains ':' then
    .error (.cliError "The volume mount path cannot contain ':'")
  else
    .ok ns

/-- `validate_secrets(ns)`: when `ns.secrets` is a list, fold every token
through `validate_secret` into one dict and store that dict back into
`ns.secrets`; any other value of the field passes untouched. -/
def validate_secrets (ns : Namespace) : Except PyErr Namespace :=
  match ns.secrets with
  | .toks items =>
      match secretsOfTokens items with
      | .error e => .error e
      | .ok m => .ok { ns with secrets := .smap m }
  | _ => .ok ns

/-- Python `'..' in s`: does the character list contain two consecutive
dots? -/
def containsDotDot : List Char → Bool
  | [] => false
  | '.' :: '.' :: _ => true
  | _ :: rest => containsDotDot rest

/-- `validate_gitrepo_directory(ns)`: fail when `gitrepo_dir` is truthy and
contains the substring `".."`. -/
def validate_gitrepo_directory (ns : Namespace) : Except PyErr Namespace :=
  if truthy ns.gitrepo_dir
      && containsDotDot (ns.gitrepo_dir.getD "").data then
    .error (.cliError "The git repo directory cannot contain '..'")
  else
    .ok ns

/-- The module-level `short_running_images` list. -/
def short_running_images : List String :=
  ["alpine", "busybox", "ubuntu", "node", "golang", "centos", "python", "php"]

/-- The characters before the first `':'` (the whole list when there is
none). -/
def takeUntilColon : List Char → List Char
  | [] => []
  | c :: cs => if c = ':' then [] else c :: takeUntilColon cs

/-- Python `ns.image.split(':')[0]`: the image name up to the first `':'`. -/
def imageBaseName (s : String) : String := String.mk (takeUntilColon s.data)

/-- `validate_image(ns)`: never fails and never writes the namespace; the
returned flag records whether the short-running-image warning was logged
(`logger.warning(...)` fires exactly when the image is truthy, its base
name is in `short_running_images`, and `command_line` is falsy). -/
def validate_image (ns : Namespace) : Namespace × Bool :=
  (ns,
    truthy ns.image
      && short_running_images.contains (imageBaseName (ns.image.getD ""))
      && !truthy ns.command_line)

/-! ### Role resolution (`_resolve_role_id`) -/

/-- ASCII-case-insensitive character comparison, as `re.IGNORECASE` behaves
on the ASCII literals of the role-definition pattern. -/
def lowerEq (a b : Char) : Bool := a.toLower = b.toLower

/-- Match a literal pattern fragment case-insensitively at the head of the
string, returning the unconsumed remainder on success. -/
def matchLitCI : List Char → List Char → Option (List Char)
  | [], s => some s
  | _ :: _, [] => none
  | p :: ps, c :: cs => if lowerEq p c then matchLitCI ps cs else none

/-- First literal fragment of the pattern
`/subscriptions/.+/providers/Microsoft.Authorization/roleDefinitions/`. -/
def roleDefLit1 : List Char := "/subscriptions/".toList

/-- Second literal fragment, up to the `.` metacharacter of
`Microsoft.Authorization` (which `re` treats as any-character). -/
def roleDefLit2 : List Char := "/providers/Microsoft".toList

/-- Third literal fragment, after the `.` metacharacter. -/
def roleDefLit3 : List Char := "Authorization/roleDefinitions/".toList

/-- Match `/providers/Microsoft` + any non-newline character +
`Authorization/roleDefinitions/` at the head of the string (trailing
characters unconstrained, as `re.match` only anchors the start). -/
def matchRoleDefTail (s : List Char) : Bool :=
  match matchLitCI roleDefLit2 s with
  | none => false
  | some rest =>
      match rest with
      | [] => false
      | c :: cs => c ≠ '\n' && (matchLitCI roleDefLit3 cs).isSome

/-- Match `.+` (one or more non-newline characters) followed by
`matchRoleDefTail`, by trying every split point. -/
def matchDotPlusTail : List Char → Bool
  | [] => false
  | c :: cs => c ≠ '\n' && (matchRoleDefTail cs || matchDotPlusTail cs)

/-- `re.match(r'/subscriptions/.+/providers/Microsoft.Authorization/roleDefinitions/', role, re.I)`
as a Boolean: does the role string start with the fully-qualified
role-definition path pattern? -/
def roleDefPatternMatch (role : String) : Bool :=
  match matchLitCI roleDefLit1 role.data with
  | none => false
  | some rest => matchDotPlusTail rest

/-- `s.replace('urn:', '')`: drop every occurrence of `urn:`, scanning left
to right (first step of `uuid.UUID`'s string normalisation). -/
def removeUrn : List Char → List Char
  | 'u' :: 'r' :: 'n' :: ':' :: rest => removeUrn rest
  | c :: rest => c :: removeUrn rest
  | [] => []

/-- `s.replace('uuid:', '')`: drop every occurrence of `uuid:`, scanning
left to right (second step of `uuid.UUID`'s string normalisation). -/
def removeUuidTag : List Char → List Char
  | 'u' :: 'u' :: 'i' :: 'd' :: ':' :: rest => removeUuidTag rest
  | c :: rest => c :: removeUuidTag rest
  | [] => []

/-- Is the character an opening or closing curly brace? -/
def isBraceChar (c : Char) : Bool := c = Char.ofNat 123 || c = Char.ofNat 125

/-- Python `s.strip('{}')`: remove curly braces from both ends. -/
def stripBraces (s : List Char) : List Char :=
  ((s.dropWhile isBraceChar).reverse.dropWhile isBraceChar).reverse

/-- The numeric value of a hexadecimal digit, if the character is one. -/
def hexVal? (c : Char) : Option Nat :=
  if c.isDigit then some (c.toNat - 48)
  else if 'a' ≤ c && c ≤ 'f' then some (c.toNat - 87)
  else if 'A' ≤ c && c ≤ 'F' then some (c.toNat - 55)
  else none

/-- The ASCII whitespace characters `int()` strips. -/
def pyIsSpace (c : Char) : Bool :=
  c = ' ' || c = '\t' || c = '\n' || c = '\x0d' || c = '\x0b' || c = '\x0c'

/-- Continue parsing hexadecimal digits after at least one digit has been
read; a single `'_'` is allowed between digits (CPython's numeral
grammar). -/
def hexTail? (acc : Nat) : List Char → Option Nat
  | [] => some acc
  | '_' :: c :: cs =>
      match hexVal? c with
      | some d => hexTail? (acc * 16 + d) cs
      | none => none
  | c :: cs =>
      match hexVal? c with
      | some d => hexTail? (acc * 16 + d) cs
      | none => none

/-- Parse a nonempty run of hexadecimal digits with optional single
underscores between digits. -/
def hexNum? : List Char → Option Nat
  | [] => none
  | c :: cs =>
      match hexVal? c with
      | some d => hexTail? d cs
      | none => none

/-- Strip an optional `0x`/`0X` base prefix (with an optional underscore
after it), as `int(s, 16)` accepts. -/
def stripHexPrefix : List Char → List Char
  | '0' :: 'x' :: rest =>
      (match rest with
       | '_' :: r2 => r2
       | _ => rest)
  | '0' :: 'X' :: rest =>
      (match rest with
       | '_' :: r2 => r2
       | _ => rest)
  | s => s

/-- CPython `int(s, 16)` on a character list: optional surrounding ASCII
whitespace, optional sign, optional `0x` prefix, then hexadecimal digits
with optional single underscores between them; `none` models the
`ValueError` on any other input. -/
def pyIntHex? (s : List Char) : Option Int :=
  let t := ((s.dropWhile pyIsSpace).reverse.dropWhile pyIsSpace).reverse
  let signed : Bool × List Char :=
    match t with
    | '+' :: r => (false, r)
    | '-' :: r => (true, r)
    | _ => (false, t)
  match hexNum? (stripHexPrefix signed.2) with
  | some n => some (if signed.1 then -(n : Int) else (n : Int))
  | none => none

/-- `uuid.UUID(role)` succeeding: normalise the string exactly as the
constructor does (drop `urn:` and `uuid:` occurrences, strip curly braces,
drop hyphens), require 32 remaining characters, parse them with
`int(·, 16)` and require the value to be a 128-bit non-negative integer. -/
def pythonUuidParses (role : String) : Bool :=
  let h1 := removeUuidTag (removeUrn role.data)
  let h2 := (stripBraces h1).filter (fun c => c ≠ '-')
  h2.length = 32 &&
    (match pyIntHex? h2 with
     | some i => decide (0 ≤ i && i < (2 : Int) ^ 128)
     | none => false)

/-- A role definition returned by the authorization client's `list` call:
the fields the source reads (`id`, and `roleName` named in the filter). -/
structure RoleDef : Type where
  id : String
  roleName : String
deriving DecidableEq

/-- Python `repr()` of a string as `str(list)` uses it, for strings without
backslashes, quotes needing escape, or control characters: single quotes,
or double quotes when the string contains a single quote but no double
quote. -/
def pyReprStr (s : String) : String :=
  let sq := String.singleton (Char.ofNat 39)
  let dq := String.singleton (Char.ofNat 34)
  if s.data.contains (Char.ofNat 39) && !(s.data.contains (Char.ofNat 34)) then
    dq ++ s ++ dq
  else
    sq ++ s ++ sq

/-- Python `str()` of a list of strings: `repr` of each element, joined
with `", "`, in square brackets. -/
def pyStrList (xs : List String) : String :=
  "[" ++ String.intercalate ", " (xs.map pyReprStr) ++ "]"

/-- The fully-qualified role-definition path the source formats around the
current subscription ID and the role string. -/
def roleDefIdPath (subscriptionId role : String) : String :=
  "/subscriptions/" ++ subscriptionId ++ "/providers/Microsoft.Authorization/roleDefinitions/" ++ role

/-- The `"Role '...' doesn't exist."` message. -/
def roleNotFoundMsg (role : String) : String :=
  let sq := String.singleton (Char.ofNat 39)
  "Role " ++ sq ++ role ++ sq ++ " doesn" ++ sq ++ "t exist."

/-- The more-than-one-match message, with the candidate IDs rendered as
Python renders the list. -/
def roleAmbiguousMsg (role : String) (ids : List String) : String :=
  let sq := String.singleton (Char.ofNat 39)
  "More than one role matches the given name " ++ sq ++ role ++ sq ++
    ". Please pick an id from " ++ sq ++ pyStrList ids ++ sq

/-- The OData filter string the source passes to the client's `list`. -/
def roleNameFilter (role : String) : String :=
  let sq := String.singleton (Char.ofNat 39)
  "roleName eq " ++ sq ++ role ++ sq

/-- `_resolve_role_id(cli_ctx, role, scope)`. The remote state is passed
in: `subscriptionId` is `client.config.subscription_id`, and
`listRoleDefs scope filter` is the list returned by
`client.list(scope, filter)`. A role matching the fully-qualified pattern
is returned as-is; otherwise a role parsing as a UUID is substituted into
the fully-qualified path; otherwise the remote list is consulted and the
call fails on zero matches, fails listing all candidate IDs on several
matches, and returns the single match's `id` otherwise. -/
def resolveRoleId (subscriptionId : String) (listRoleDefs : String → String → List RoleDef)
    (role scope : String) : Except PyErr String :=
  if roleDefPatternMatch role then
    .ok role
  else if pythonUuidParses role then
    .ok (roleDefIdPath subscriptionId role)
  else
    match listRoleDefs scope (roleNameFilter role) with
    | [] => .error (.cliError (roleNotFoundMsg role))
    | [r] => .ok r.id
    | rs => .error (.cliError (roleAmbiguousMsg role (rs.map (fun r => r.id))))

/-- The `[system]` sentinel for the local system-assigned identity. -/
def MSI_LOCAL_ID : String := "[system]"

/-- The usage-error message raised when a role is given without a scope. -/
def roleWithoutScopeMsg (role : String) : String :=
  let sq := String.singleton (Char.ofNat 39)
  "usage error: " ++ sq ++ "--role " ++ role ++ sq ++
    " is not applicable as the " ++ sq ++ "--scope" ++ sq ++ " is not provided"

/-- The usage-error message raised when scope/role accompany a user
identity. -/
def scopeRoleSystemOnlyMsg : String :=
  let sq := String.singleton (Char.ofNat 39)
  "usage error: " ++ sq ++ "--scope" ++ sq ++ "/" ++ sq ++ "--role" ++ sq ++
    " is only applicable when assign system identity"

/-- `validate_msi(cmd, namespace)`: with `assign_identity` present, a role
without a scope is a usage error; with a scope, a non-system identity list
is a usage error, and otherwise the resolved role-definition ID is stored
into `identity_role_id`. With `assign_identity` absent (`None`), a truthy
scope or an explicitly requested role is a usage error. -/
def validate_msi (subscriptionId : String) (listRoleDefs : String → String → List RoleDef)
    (ns : Namespace) : Except PyErr Namespace :=
  if ns.assign_identity.isSome then
    let identities := ns.assign_identity.getD []
    if !truthy ns.identity_scope && !ns.identity_role.hasDefaultMarker then
      .error (.cliError (roleWithoutScopeMsg ns.identity_role.value))
    else if truthy ns.identity_scope then
      if !identities.isEmpty && !identities.contains MSI_LOCAL_ID then
        .error (.cliError scopeRoleSystemOnlyMsg)
      else
        match resolveRoleId subscriptionId listRoleDefs ns.identity_role.value
            (ns.identity_scope.getD "") with
        | .error e => .error e
        | .ok rid => .ok { ns with identity_role_id := some rid }
    else
      .ok ns
  else if truthy ns.identity_scope || !ns.identity_role.hasDefaultMarker then
    .error (.cliError "usage error: --assign-identity [--scope SCOPE] [--role ROLE]")
  else
    .ok ns

/-! ### Resource IDs, `validate_subnet` and `validate_network_profile` -/

/-- Models `msrestazure.tools.is_valid_resource_id` for the paths this
module handles: the string must decompose as
`/subscriptions/S/resourceGroups/G/providers/NS/TYPE/NAME` with the five
variable components nonempty (further child segments after the name are
allowed, as the library's parser also accepts them); `None` is not a
valid resource ID. -/
def splitOnSlash : List Char → List (List Char)
  | [] => [[]]
  | c :: cs =>
      if c = '/' then [] :: splitOnSlash cs
      else
        match splitOnSlash cs with
        | [] => [[c]]
        | g :: gs => (c :: g) :: gs

def isValidResourceId : Option String → Bool
  | none => false
  | some s =>
      match splitOnSlash s.data with
      | [] :: seg1 :: sub :: seg2 :: rg :: seg3 :: nsp :: typ :: nm :: _ =>
          seg1 = "subscriptions".data && seg2 = "resourceGroups".data && seg3 = "providers".data
            && sub ≠ [] && rg ≠ [] && nsp ≠ [] && typ ≠ [] && nm ≠ []
      | _ => false

/-- Models `msrestazure.tools.resource_id` for the keyword arguments the
source passes: format the fully-qualified path from subscription, resource
group, provider namespace, type and name. -/
def resource_id (sub rg nsp typ nm : String) : String :=
  "/subscriptions/" ++ sub ++ "/resourceGroups/" ++ rg ++ "/providers/" ++
    nsp ++ "/" ++ typ ++ "/" ++ nm

/-- The usage-error message of `validate_subnet`. -/
def subnetUsageMsg : String :=
  "usage error: --vnet NAME --subnet NAME | --vnet ID --subnet NAME | --subnet ID"

/-- The deprecated-`vnet_name` backwards-compatibility shim at the top of
`validate_subnet`: copy a truthy `vnet_name` into `vnet` when `vnet` is
falsy. -/
def vnetShim (ns : Namespace) : Namespace :=
  if truthy ns.vnet_name && !truthy ns.vnet then { ns with vnet := ns.vnet_name } else ns

/-- `validate_subnet(ns)`: first the backwards-compatibility shim copying a
truthy `vnet_name` into a falsy `vnet`; then, unless `subnet` is already a
valid resource ID, exactly one of `vnet`/`subnet` being truthy is a usage
error. -/
def validate_subnet (ns : Namespace) : Except PyErr Namespace :=
  let ns1 := vnetShim ns
  if !isValidResourceId ns1.subnet
      && ((truthy ns1.vnet && !truthy ns1.subnet) || (truthy ns1.subnet && !truthy ns1.vnet)) then
    .error (.cliError subnetUsageMsg)
  else
    .ok ns1

/-- The network-profile/IP-address conflict message. -/
def profileIpMsg : String :=
  let dq := String.singleton (Char.ofNat 34)
  "Can not use " ++ dq ++ "--network-profile" ++ dq ++ " with IP address type " ++
    dq ++ "Public" ++ dq ++ "."

/-- The network-profile/DNS-label conflict message. -/
def profileDnsMsg : String :=
  let dq := String.singleton (Char.ofNat 34)
  "Can not use " ++ dq ++ "--network-profile" ++ dq ++ " with " ++
    dq ++ "--dns-name-label" ++ dq ++ "."

/-- The resource ID `validate_network_profile` builds when the profile is
not already fully qualified. -/
def builtProfileId (subscriptionId : String) (ns : Namespace) : String :=
  resource_id subscriptionId ns.resource_group_name "Microsoft.Network" "networkProfiles"
    (ns.network_profile.getD "")

/-- `validate_network_profile(cmd, ns)`: a truthy network profile combined
with a truthy `ip_address` or a truthy `dns_name_label` is an error;
otherwise a truthy profile that is not already a valid resource ID is
replaced by the ID built from the current subscription, the namespace's
resource group and the fixed `Microsoft.Network/networkProfiles` type.
`subscriptionId` is `get_subscription_id(cmd.cli_ctx)`. -/
def validate_network_profile (subscriptionId : String) (ns : Namespace) : Except PyErr Namespace :=
  if truthy ns.network_profile && truthy ns.ip_address then
    .error (.cliError profileIpMsg)
  else if truthy ns.network_profile && truthy ns.dns_name_label then
    .error (.cliError profileDnsMsg)
  else if truthy ns.network_profile then
    if !isValidResourceId ns.network_profile then
      .ok { ns with network_profile := some (builtProfileId subscriptionId ns) }
    else
      .ok ns
  else
    .ok ns

/-! ## Helper lemmas -/

/-- The base64 string of an ASCII string, i.e. the value stored for a
secret: `b64encode(v.encode('ascii')).decode('ascii')`. -/
def base64OfString (v : String) : String :=
  String.mk (b64encode (v.data.map Char.toNat))

lemma data_eq_nil_iff (s : String) : s.data = [] ↔ s = "" := by
  cases s with
  | mk d =>
      constructor
      · intro h
        exact congrArg String.mk h
      · intro h
        rw [h]

lemma truthy_some_of_ne (s : String) (h : s ≠ "") : truthy (some s) = true := by
  simp [truthy, h]

lemma splitFirstEq_of_not_mem (l : List Char) (h : '=' ∉ l) : splitFirstEq l = none := by
  induction l with
  | nil => rfl
  | cons c cs ih =>
      have hc : c ≠ '=' := fun e => h (e ▸ List.mem_cons_self c cs)
      have hcs : '=' ∉ cs := fun m => h (List.mem_cons_of_mem c m)
      simp [splitFirstEq, hc, ih hcs]

lemma splitFirstEq_append (k v : List Char) (h : '=' ∉ k) :
    splitFirstEq (k ++ '=' :: v) = some (k, v) := by
  induction k with
  | nil => simp [splitFirstEq]
  | cons c cs ih =>
      have hc : c ≠ '=' := fun e => h (e ▸ List.mem_cons_self c cs)
      have hcs : '=' ∉ cs := fun m => h (List.mem_cons_of_mem c m)
      simp [splitFirstEq, hc, ih hcs]

lemma b64OfAscii_ok (v : String) (hv : ∀ c ∈ v.data, c.toNat ≤ 127) :
    b64OfAscii v = .ok (base64OfString v) := by
  have hall : v.data.all (fun c => c.toNat ≤ 127) = true := by
    rw [List.all_eq_true]
    intro x hx
    exact decide_eq_true (hv x hx)
  simp only [b64OfAscii, asciiEncode, hall, if_true, Except.map, base64OfString]

/-! ## Claims -/

/-- **C1.** For every token of the form `k=v` (splitting on the first `'='`,
with the value ASCII-encodable as `"ASCII-encoded"` presupposes),
`validate_secret` returns the one-entry mapping from `k` to the base64 of
`v`; every non-empty token with no `'='` fails with the `CLIError`
(`InvalidArgument`) message; an absent or empty token yields the empty
mapping. -/
theorem validate_secret_spec :
    (∀ k v : String, '=' ∉ k.data → (∀ c ∈ v.data, c.toNat ≤ 127) →
        validate_secret (some (k ++ "=" ++ v)) = .ok [(k, base64OfString v)]) ∧
    (∀ s : String, s ≠ "" → '=' ∉ s.data →
        validate_secret (some s) =
          .error (.cliError "Secrets need to be specifed in key=value format.")) ∧
    validate_secret none = .ok [] ∧ validate_secret (some "") = .ok [] := by
  refine ⟨?_, ?_, rfl, rfl⟩
  · intro k v hk hv
    have hdata : (k ++ "=" ++ v).data = k.data ++ '=' :: v.data := by
      rw [String.data_append, String.data_append, List.append_assoc]
      rfl
    have hne : (k ++ "=" ++ v) ≠ "" := by
      intro e
      have h0 : (k ++ "=" ++ v).data = [] := (data_eq_nil_iff _).mpr e
      rw [hdata] at h0
      simp at h0
    have hmkv : String.mk v.data = v := rfl
    have hmkk : String.mk k.data = k := rfl
    simp only [validate_secret, truthy_some_of_ne _ hne, if_true, Option.getD_some, hdata,
      splitFirstEq_append _ _ hk]
    simp [hmkv, hmkk, b64OfAscii_ok v hv]
  · intro s hs hs2
    simp only [validate_secret, truthy_some_of_ne _ hs, if_true, Option.getD_some,
      splitFirstEq_of_not_mem _ hs2]

/-- Witness for C1 at concrete inputs: `"key=value"` maps `key` to the
base64 of `value`, and `"kv"` fails. -/
theorem validate_secret_spec_witness :
    validate_secret (some ("key" ++ "=" ++ "value")) = .ok [("key", base64OfString "value")] ∧
    validate_secret (some "kv") =
      .error (.cliError "Secrets need to be specifed in key=value format.") :=
  ⟨validate_secret_spec.1 "key" "value" (by decide) (by decide),
   validate_secret_spec.2.1 "kv" (by decide) (by decide)⟩

/-- **C7.** `validate_volume_mount_path` fails with the `CLIError`
(`InvalidArgument`) message exactly when the mount path is present and
contains `':'`; any other namespace (path unset, empty, or colon-free)
passes with the namespace unchanged. -/
theorem validate_volume_mount_path_spec :
    ∀ ns : Namespace,
      (validate_volume_mount_path ns =
          .error (.cliError "The volume mount path cannot contain ':'") ↔
        ∃ s, ns.azure_file_volume_mount_path = some s ∧ ':' ∈ s.data) ∧
      ((∀ s, ns.azure_file_volume_mount_path = some s → ':' ∉ s.data) →
        validate_volume_mount_path ns = .ok ns) := by
  intro ns
  cases h : ns.azure_file_volume_mount_path with
  | none =>
      have hval : validate_volume_mount_path ns = .ok ns := by
        unfold validate_volume_mount_path
        rw [h]
        rfl
      refine ⟨?_, fun _ => hval⟩
      rw [hval]
      constructor
      · intro hcontra
        exact Except.noConfusion hcontra
      · rintro ⟨s2, hs2, _⟩
        exact Option.noConfusion hs2
  | some s =>
      by_cases hc : ':' ∈ s.data
      · have hne : s ≠ "" := by
          intro e
          rw [← data_eq_nil_iff] at e
          rw [e] at hc
          exact absurd hc (List.not_mem_nil ':')
        have hcontains : s.data.contains ':' = true := List.elem_iff.mpr hc
        have hval : validate_volume_mount_path ns =
            .error (.cliError "The volume mount path cannot contain ':'") := by
          unfold validate_volume_mount_path
          rw [h]
          simp only [Option.getD_some, truthy_some_of_ne _ hne, hcontains, Bool.and_self,
            if_true]
        refine ⟨?_, fun hall => absurd hc (hall s rfl)⟩
        rw [hval]
        constructor
        · intro _
          exact ⟨s, rfl, hc⟩
        · intro _
          rfl
      · have hcontains : s.data.contains ':' = false := by
          rw [Bool.eq_false_iff]
          intro hcontra
          exact hc (List.elem_iff.mp hcontra)
        have hval : validate_volume_mount_path ns = .ok ns := by
          unfold validate_volume_mount_path
          rw [h]
          simp only [Option.getD_some, hcontains, Bool.and_false, Bool.false_eq_true,
            if_false]
        refine ⟨?_, fun _ => hval⟩
        rw [hval]
        constructor
        · intro hcontra
          exact Except.noConfusion hcontra
        · rintro ⟨s2, hs2, hcs2⟩
          cases Option.some.inj hs2
          exact absurd hcs2 hc

/-- Witness for C7: a path with a colon fails; a colon-free namespace
passes unchanged. -/
theorem validate_volume_mount_path_spec_witness :
    validate_volume_mount_path { azure_file_volume_mount_path := some "/mnt:x" } =
      .error (.cliError "The volume mount path cannot contain ':'") ∧
    validate_volume_mount_path { azure_file_volume_mount_path := some "/mnt/x" } =
      .ok ({ azure_file_volume_mount_path := some "/mnt/x" } : Namespace) :=
  ⟨((validate_volume_mount_path_spec _).1).mpr ⟨"/mnt:x", rfl, by decide⟩,
   (validate_volume_mount_path_spec _).2 (by intro s hs; cases hs; decide)⟩

/-- **C9.** `validate_image` never fails (its type has no error outcome,
matching the raise-free source) and never writes the namespace; the
warning flag is set exactly when the image name stripped of any `:tag`
suffix is one of the short-running base images and no command line was
supplied. -/
theorem validate_image_spec :
    ∀ ns : Namespace,
      (validate_image ns).1 = ns ∧
      ((validate_image ns).2 = true ↔
        short_running_images.contains (imageBaseName (ns.image.getD "")) = true ∧
          truthy ns.command_line = false) := by
  intro ns
  refine ⟨rfl, ?_⟩
  simp only [validate_image]
  cases him : ns.image with
  | none =>
      have h1 : imageBaseName "" ∉ short_running_images := by decide
      simp [truthy, h1]
  | some s =>
      by_cases hse : s = ""
      · subst hse
        have h1 : imageBaseName "" ∉ short_running_images := by decide
        simp [truthy, h1]
      · simp only [truthy_some_of_ne _ hse, Option.getD_some, Bool.true_and,
          Bool.and_eq_true, Bool.not_eq_true']

/-- **C10.** A token containing `'='` whose value has a character outside
ASCII makes `validate_secret` raise the encoding error coming from
`encode('ascii')`, which is a different exception class from the
`CLIError` used for the missing-`'='` case. -/
theorem validate_secret_nonascii :
    validate_secret (some "k=é") = .error .unicodeEncodeError ∧
    (∀ msg : String,
      (Except.error .unicodeEncodeError : Except PyErr (List (String × String))) ≠
        .error (.cliError msg)) := by
  refine ⟨by decide, ?_⟩
  intro msg hcontra
  exact absurd (Except.error.inj hcontra) (by simp)

lemma bool_mix_iff (a b : Bool) : ((a && !b) || (b && !a)) = true ↔ a ≠ b := by
  cases a <;> cases b <;> decide

/-- **C3.** With `assign_identity` absent (`None`), `validate_msi` fails
with the `UsageError` message unless the identity scope is falsy (unset)
and the role still carries its default marker; in particular a truthy
`identity_scope` with `assign_identity=None` always fails. -/
theorem validate_msi_absent_spec :
    ∀ (subId : String) (listFn : String → String → List RoleDef) (ns : Namespace),
      ns.assign_identity = none →
      ((truthy ns.identity_scope = false ∧ ns.identity_role.hasDefaultMarker = true) →
          validate_msi subId listFn ns = .ok ns) ∧
      (¬ (truthy ns.identity_scope = false ∧ ns.identity_role.hasDefaultMarker = true) →
          validate_msi subId listFn ns =
            .error (.cliError "usage error: --assign-identity [--scope SCOPE] [--role ROLE]")) ∧
      (∀ sc, ns.identity_scope = some sc → sc ≠ "" →
          validate_msi subId listFn ns =
            .error (.cliError "usage error: --assign-identity [--scope SCOPE] [--role ROLE]")) := by
  intro subId listFn ns hA
  have hIs : ns.assign_identity.isSome = false := by rw [hA]; rfl
  refine ⟨?_, ?_, ?_⟩
  · rintro ⟨h1, h2⟩
    simp [validate_msi, hIs, h1, h2]
  · intro hn
    have hor : (truthy ns.identity_scope || !ns.identity_role.hasDefaultMarker) = true := by
      cases hsc : truthy ns.identity_scope with
      | true => rfl
      | false =>
          cases hm : ns.identity_role.hasDefaultMarker with
          | true => exact absurd ⟨hsc, hm⟩ hn
          | false => rfl
    simp [validate_msi, hIs, hor]
  · intro sc hsc hscne
    have h1 : truthy ns.identity_scope = true := by
      rw [hsc]
      exact truthy_some_of_ne _ hscne
    simp [validate_msi, hIs, h1]

/-- Witness for C3: defaults pass; a set scope without `assign_identity`
fails. -/
theorem validate_msi_absent_spec_witness :
    validate_msi "sub" (fun _ _ => []) {} = .ok ({} : Namespace) ∧
    validate_msi "sub" (fun _ _ => []) { identity_scope := some "/subscriptions/s" } =
      .error (.cliError "usage error: --assign-identity [--scope SCOPE] [--role ROLE]") :=
  ⟨(validate_msi_absent_spec "sub" (fun _ _ => []) {} rfl).1 (by exact ⟨rfl, rfl⟩),
   (validate_msi_absent_spec "sub" (fun _ _ => []) _ rfl).2.2 "/subscriptions/s" rfl
     (by decide)⟩

/-- **C2.** `_resolve_role_id`: a role matching the fully-qualified
role-definition pattern is returned as-is; else a role parsing as a UUID
is substituted into the path with the current subscription ID; else the
remote list under the scope decides — zero matches fail with the
not-found `CLIError`, one match returns that match's `id`, several
matches fail listing every candidate ID. -/
theorem resolveRoleId_spec :
    ∀ (subId : String) (listFn : String → String → List RoleDef) (role scope : String),
      (roleDefPatternMatch role = true → resolveRoleId subId listFn role scope = .ok role) ∧
      (roleDefPatternMatch role = false → pythonUuidParses role = true →
          resolveRoleId subId listFn role scope = .ok (roleDefIdPath subId role)) ∧
      (roleDefPatternMatch role = false → pythonUuidParses role = false →
        ((listFn scope (roleNameFilter role) = [] →
            resolveRoleId subId listFn role scope = .error (.cliError (roleNotFoundMsg role))) ∧
         (∀ r, listFn scope (roleNameFilter role) = [r] →
            resolveRoleId subId listFn role scope = .ok r.id) ∧
         (∀ r1 r2 rs, listFn scope (roleNameFilter role) = r1 :: r2 :: rs →
            resolveRoleId subId listFn role scope =
              .error (.cliError (roleAmbiguousMsg role
                ((r1 :: r2 :: rs).map (fun r => r.id))))))) := by
  intro subId listFn role scope
  refine ⟨?_, ?_, ?_⟩
  · intro hp
    simp [resolveRoleId, hp]
  · intro hp hu
    simp [resolveRoleId, hp, hu]
  · intro hp hu
    refine ⟨?_, ?_, ?_⟩
    · intro hl
      simp [resolveRoleId, hp, hu, hl]
    · intro r hl
      simp [resolveRoleId, hp, hu, hl]
    · intro r1 r2 rs hl
      simp [resolveRoleId, hp, hu, hl]

set_option maxRecDepth 4000 in
/-- Witness for C2: one concrete input per branch of the resolution. -/
theorem resolveRoleId_spec_witness :
    resolveRoleId "sub" (fun _ _ => [])
        "/subscriptions/s/providers/Microsoft.Authorization/roleDefinitions/x" "sc" =
      .ok "/subscriptions/s/providers/Microsoft.Authorization/roleDefinitions/x" ∧
    resolveRoleId "sub" (fun _ _ => []) "d73bb315-6f5d-4b5c-8a12-5f6a79dca74e" "sc" =
      .ok (roleDefIdPath "sub" "d73bb315-6f5d-4b5c-8a12-5f6a79dca74e") ∧
    resolveRoleId "sub" (fun _ _ => [⟨"RID", "Reader"⟩]) "Reader" "sc" = .ok "RID" ∧
    resolveRoleId "sub" (fun _ _ => []) "Reader" "sc" =
      .error (.cliError (roleNotFoundMsg "Reader")) ∧
    resolveRoleId "sub" (fun _ _ => [⟨"R1", "Reader"⟩, ⟨"R2", "Reader"⟩]) "Reader" "sc" =
      .error (.cliError (roleAmbiguousMsg "Reader" ["R1", "R2"])) :=
  ⟨(resolveRoleId_spec "sub" (fun _ _ => [])
      "/subscriptions/s/providers/Microsoft.Authorization/roleDefinitions/x" "sc").1 (by decide),
   (resolveRoleId_spec "sub" (fun _ _ => []) "d73bb315-6f5d-4b5c-8a12-5f6a79dca74e" "sc").2.1
     (by decide) (by decide),
   ((resolveRoleId_spec "sub" (fun _ _ => [⟨"RID", "Reader"⟩]) "Reader" "sc").2.2
     (by decide) (by decide)).2.1 ⟨"RID", "Reader"⟩ rfl,
   ((resolveRoleId_spec "sub" (fun _ _ => []) "Reader" "sc").2.2
     (by decide) (by decide)).1 rfl,
   ((resolveRoleId_spec "sub" (fun _ _ => [⟨"R1", "Reader"⟩, ⟨"R2", "Reader"⟩]) "Reader" "sc").2.2
     (by decide) (by decide)).2.2 ⟨"R1", "Reader"⟩ ⟨"R2", "Reader"⟩ [] rfl⟩

/-- **C5.** `validate_subnet` first copies a truthy `vnet_name` into a
falsy `vnet`; then, unless `subnet` is already a fully-qualified resource
ID, it fails with the `UsageError` message exactly when one of
`vnet`/`subnet` is truthy and the other is not, and passes (returning the
shimmed namespace) when both or neither are truthy or when `subnet` is
fully qualified. -/
theorem validate_subnet_spec :
    ∀ ns : Namespace,
      ((truthy ns.vnet_name && !truthy ns.vnet) = true →
          vnetShim ns = { ns with vnet := ns.vnet_name }) ∧
      ((truthy ns.vnet_name && !truthy ns.vnet) = false → vnetShim ns = ns) ∧
      (validate_subnet ns = .error (.cliError subnetUsageMsg) ↔
        isValidResourceId ns.subnet = false ∧ truthy (vnetShim ns).vnet ≠ truthy ns.subnet) ∧
      (isValidResourceId ns.subnet = true ∨ truthy (vnetShim ns).vnet = truthy ns.subnet →
        validate_subnet ns = .ok (vnetShim ns)) := by
  intro ns
  have hsub : (vnetShim ns).subnet = ns.subnet := by
    unfold vnetShim
    split <;> rfl
  have hval : validate_subnet ns =
      (if !isValidResourceId ns.subnet &&
          ((truthy (vnetShim ns).vnet && !truthy ns.subnet) ||
            (truthy ns.subnet && !truthy (vnetShim ns).vnet)) then
        .error (.cliError subnetUsageMsg)
      else
        .ok (vnetShim ns)) := by
    simp only [validate_subnet, hsub]
  refine ⟨fun h => by simp [vnetShim, h], fun h => by simp [vnetShim, h], ?_, ?_⟩
  · rw [hval]
    cases hv : isValidResourceId ns.subnet with
    | false =>
        cases ha : truthy (vnetShim ns).vnet <;> cases hb : truthy ns.subnet <;> simp
    | true => simp
  · intro h
    rw [hval]
    rcases h with hv | hab
    · rw [hv]
      simp
    · rw [hab]
      cases hb : truthy ns.subnet <;> simp

/-- Witness for C5: `vnet` set with `subnet` unset fails; both set
passes. -/
theorem validate_subnet_spec_witness :
    validate_subnet { vnet := some "v" } = .error (.cliError subnetUsageMsg) ∧
    validate_subnet { vnet := some "v", subnet := some "sn" } =
      .ok (vnetShim { vnet := some "v", subnet := some "sn" }) :=
  ⟨(validate_subnet_spec { vnet := some "v" }).2.2.1.mpr (by exact ⟨by decide, by decide⟩),
   (validate_subnet_spec { vnet := some "v", subnet := some "sn" }).2.2.2
     (Or.inr (by decide))⟩

/-- Counterexample to C6 as stated: with `ip_address = "Private"` — neither
of the claim's two conflicts (`ip_address` of type `"Public"`, or a set
`dns_name_label`) — the code still fails, because the source only tests
the truthiness of `ip_address`. -/
theorem validate_network_profile_counterexample :
    validate_network_profile "sub"
        { network_profile := some "p", ip_address := some "Private",
          resource_group_name := "rg" } = .error (.cliError profileIpMsg) ∧
    ({ network_profile := some "p", ip_address := some "Private",
        resource_group_name := "rg" } : Namespace).ip_address ≠ some "Public" ∧
    ({ network_profile := some "p", ip_address := some "Private",
        resource_group_name := "rg" } : Namespace).dns_name_label = none := by
  decide

/-- **C6 (amended).** With a truthy network profile,
`validate_network_profile` fails when `ip_address` is truthy (set to any
value — the message names type `"Public"`) and when `dns_name_label` is
truthy; with neither set, a profile that is not a fully-qualified resource
ID is replaced by the ID built from the current subscription, the target
resource group and the fixed `Microsoft.Network/networkProfiles` type,
an already-qualified profile is left alone, and a falsy profile passes
untouched. -/
theorem validate_network_profile_spec :
    ∀ (subId : String) (ns : Namespace),
      (truthy ns.network_profile = true → truthy ns.ip_address = true →
          validate_network_profile subId ns = .error (.cliError profileIpMsg)) ∧
      (truthy ns.network_profile = true → truthy ns.ip_address = false →
          truthy ns.dns_name_label = true →
          validate_network_profile subId ns = .error (.cliError profileDnsMsg)) ∧
      (truthy ns.network_profile = true → truthy ns.ip_address = false →
          truthy ns.dns_name_label = false → isValidResourceId ns.network_profile = false →
          validate_network_profile subId ns =
            .ok { ns with network_profile := some (builtProfileId subId ns) }) ∧
      (truthy ns.network_profile = true → truthy ns.ip_address = false →
          truthy ns.dns_name_label = false → isValidResourceId ns.network_profile = true →
          validate_network_profile subId ns = .ok ns) ∧
      (truthy ns.network_profile = false → validate_network_profile subId ns = .ok ns) := by
  intro subId ns
  refine ⟨?_, ?_, ?_, ?_, ?_⟩
  · intro h1 h2
    simp [validate_network_profile, h1, h2]
  · intro h1 h2 h3
    simp [validate_network_profile, h1, h2, h3]
  · intro h1 h2 h3 h4
    simp [validate_network_profile, h1, h2, h3, h4]
  · intro h1 h2 h3 h4
    simp [validate_network_profile, h1, h2, h3, h4]
  · intro h1
    simp [validate_network_profile, h1]

/-- Witness for C6 (amended): each branch at a concrete namespace. -/
theorem validate_network_profile_spec_witness :
    validate_network_profile "sub" { network_profile := some "p", ip_address := some "Public" } =
      .error (.cliError profileIpMsg) ∧
    validate_network_profile "sub" { network_profile := some "p", dns_name_label := some "d" } =
      .error (.cliError profileDnsMsg) ∧
    validate_network_profile "sub" { network_profile := some "p", resource_group_name := "rg" } =
      .ok { network_profile := some (builtProfileId "sub"
              { network_profile := some "p", resource_group_name := "rg" }),
            resource_group_name := "rg" } ∧
    validate_network_profile "sub" {} = .ok ({} : Namespace) :=
  ⟨(validate_network_profile_spec "sub" _).1 (by decide) (by decide),
   (validate_network_profile_spec "sub" _).2.1 (by decide) (by decide) (by decide),
   (validate_network_profile_spec "sub" _).2.2.1 (by decide) (by decide) (by decide) (by decide),
   (validate_network_profile_spec "sub" _).2.2.2.2 (by decide)⟩

/-! ### Dict lemmas for C4 -/

lemma dictLookup_cons_of_eq {a : String × String} {k : String} (h : a.1 = k)
    (d : List (String × String)) : dictLookup (a :: d) k = some a.2 := by
  unfold dictLookup
  rw [List.find?_cons_of_pos _ (by simp [h])]
  rfl

lemma dictLookup_cons_of_ne {a : String × String} {k : String} (h : a.1 ≠ k)
    (d : List (String × String)) : dictLookup (a :: d) k = dictLookup d k := by
  unfold dictLookup
  rw [List.find?_cons_of_neg _ (by simp [h])]

lemma dictLookup_map_overwrite {k v k' : String} (h : k' ≠ k) :
    ∀ d : List (String × String),
      dictLookup (d.map (fun p => if p.1 = k then (k, v) else p)) k' = dictLookup d k'
  | [] => rfl
  | p :: ds => by
      by_cases hp : p.1 = k
      · rw [List.map_cons, if_pos hp, dictLookup_cons_of_ne (a := (k, v)) (Ne.symm h),
          dictLookup_cons_of_ne (a := p) (by rw [hp]; exact Ne.symm h),
          dictLookup_map_overwrite h ds]
      · rw [List.map_cons, if_neg hp]
        by_cases hp' : p.1 = k'
        · rw [dictLookup_cons_of_eq hp', dictLookup_cons_of_eq hp']
        · rw [dictLookup_cons_of_ne hp', dictLookup_cons_of_ne hp',
            dictLookup_map_overwrite h ds]

lemma dictInsert_of_mem (d : List (String × String)) (k v : String)
    (h : d.any (fun p => p.1 = k) = true) :
    dictInsert d k v = d.map (fun p => if p.1 = k then (k, v) else p) := by
  unfold dictInsert
  rw [if_pos h]

lemma dictInsert_of_not_mem (d : List (String × String)) (k v : String)
    (h : d.any (fun p => p.1 = k) = false) :
    dictInsert d k v = d ++ [(k, v)] := by
  unfold dictInsert
  rw [h]
  rfl

lemma dictLookup_dictInsert (d : List (String × String)) (k v k' : String) :
    dictLookup (dictInsert d k v) k' = if k' = k then some v else dictLookup d k' := by
  by_cases hk : k' = k
  · subst hk
    rw [if_pos rfl]
    induction d with
    | nil =>
        rw [dictInsert_of_not_mem [] k' v rfl, List.nil_append]
        exact dictLookup_cons_of_eq rfl _
    | cons p ds ih =>
        by_cases hp : p.1 = k'
        · have hany : ((p :: ds).any (fun q => q.1 = k')) = true := by simp [hp]
          rw [dictInsert_of_mem _ _ v hany, List.map_cons, if_pos hp]
          exact dictLookup_cons_of_eq rfl _
        · cases hany : ds.any (fun q => q.1 = k') with
          | true =>
              have hany2 : ((p :: ds).any (fun q => q.1 = k')) = true := by simp [hany]
              rw [dictInsert_of_mem _ _ v hany2, List.map_cons, if_neg hp,
                dictLookup_cons_of_ne hp, ← dictInsert_of_mem _ _ v hany]
              exact ih
          | false =>
              have hany2 : ((p :: ds).any (fun q => q.1 = k')) = false := by simp [hp, hany]
              rw [dictInsert_of_not_mem _ _ v hany2, List.cons_append, dictLookup_cons_of_ne hp,
                ← dictInsert_of_not_mem _ _ v hany]
              exact ih
  · rw [if_neg hk]
    cases hany : d.any (fun q => q.1 = k) with
    | true =>
        rw [dictInsert_of_mem _ _ v hany]
        exact dictLookup_map_overwrite hk d
    | false =>
        rw [dictInsert_of_not_mem _ _ v hany]
        unfold dictLookup
        rw [List.find?_append]
        have hlast : List.find? (fun p => p.1 = k') [(k, v)] = none := by
          rw [List.find?_cons_of_neg _ (by simp [Ne.symm hk])]
          rfl
        rw [hlast, Option.or_none]

lemma getLast?_cons_or {α : Type} (x : α) (l : List α) :
    (x :: l).getLast? = l.getLast?.or (some x) := by
  cases l with
  | nil => rfl
  | cons y ys =>
      rw [List.getLast?_cons_cons]
      cases hl : (y :: ys).getLast? with
      | none =>
          rw [List.getLast?_eq_none_iff] at hl
          exact List.noConfusion hl
      | some z => rfl

/-- The key/encoded-value entry a token contributes when it parses to a
one-entry dict, `none` when it contributes nothing (empty token). -/
def tokenEntry (t : String) : Option (String × String) :=
  match validate_secret (some t) with
  | .ok [p] => some p
  | _ => none

/-- The value the last token with key `k` contributes: the claim's
last-write-wins reading of the token list. -/
def lastValue (ts : List String) (k : String) : Option String :=
  (((ts.filterMap tokenEntry).filter (fun p => p.1 = k)).getLast?).map (fun p => p.2)

lemma validate_secret_ok_shape {t : String} {r : List (String × String)}
    (h : validate_secret (some t) = .ok r) : r = [] ∨ ∃ p, r = [p] := by
  unfold validate_secret at h
  split at h
  · simp only [Option.getD_some] at h
    split at h
    · exact Except.noConfusion h
    · split at h
      · exact Except.noConfusion h
      · right
        exact ⟨_, (Except.ok.inj h).symm⟩
  · left
    exact (Except.ok.inj h).symm

lemma lastValue_cons_none {t : String} (ts : List String) (k : String)
    (h : tokenEntry t = none) : lastValue (t :: ts) k = lastValue ts k := by
  unfold lastValue
  rw [List.filterMap_cons, h]

lemma lastValue_cons_some {t : String} {p : String × String} (ts : List String) (k : String)
    (h : tokenEntry t = some p) :
    lastValue (t :: ts) k =
      (lastValue ts k).or (if p.1 = k then some p.2 else none) := by
  unfold lastValue
  rw [List.filterMap_cons, h]
  by_cases hp : p.1 = k
  · rw [if_pos hp, List.filter_cons_of_pos (by simp [hp]), getLast?_cons_or]
    cases ((ts.filterMap tokenEntry).filter (fun q => q.1 = k)).getLast? with
    | none => rfl
    | some z => rfl
  · rw [if_neg hp, List.filter_cons_of_neg (by simp [hp]), Option.or_none]

lemma secretsLoop_lookup :
    ∀ (ts : List String) (acc : List (String × String)),
      (∀ t ∈ ts, (validate_secret (some t)).isOk = true) →
      ∃ m, secretsLoop acc ts = .ok m ∧
        ∀ k, dictLookup m k = (lastValue ts k).or (dictLookup acc k)
  | [], acc, _ => ⟨acc, rfl, fun k => rfl⟩
  | t :: ts, acc, h => by
      have hok := h t (List.mem_cons_self t ts)
      cases heq : validate_secret (some t) with
      | error e =>
          rw [heq] at hok
          exact Bool.noConfusion hok
      | ok r =>
          have hstep : secretsLoop acc (t :: ts) = secretsLoop (dictUpdate acc r) ts := by
            simp only [secretsLoop]
            rw [heq]
          obtain ⟨m, hm, hlook⟩ :=
            secretsLoop_lookup ts (dictUpdate acc r) (fun u hu => h u (List.mem_cons_of_mem t hu))
          refine ⟨m, by rw [hstep, hm], fun k => ?_⟩
          rcases validate_secret_ok_shape heq with hr | ⟨p, hr⟩
          · subst hr
            have hent : tokenEntry t = none := by
              unfold tokenEntry
              rw [heq]
            rw [hlook k, lastValue_cons_none ts k hent]
            rfl
          · subst hr
            have hent : tokenEntry t = some p := by
              unfold tokenEntry
              rw [heq]
            have hupd : dictUpdate acc [p] = dictInsert acc p.1 p.2 := rfl
            rw [hlook k, hupd, lastValue_cons_some ts k hent, dictLookup_dictInsert,
              Option.or_assoc]
            by_cases hp : p.1 = k
            · rw [if_pos hp, if_pos (hp.symm)]
              cases lastValue ts k with
              | none => rfl
              | some z => rfl
            · rw [if_neg hp, if_neg (fun e => hp e.symm)]
              cases lastValue ts k with
              | none => rfl
              | some z => rfl

/-- **C4.** For a namespace whose `secrets` field is a list of tokens that
all parse, `validate_secrets` parses each token via the single-secret rule
and replaces the field with the combined dict, in which each key holds the
value contributed by the **last** token with that key (last-write-wins on
duplicates). -/
theorem validate_secrets_spec :
    ∀ (ns : Namespace) (ts : List String),
      ns.secrets = Secrets.toks ts →
      (∀ t ∈ ts, (validate_secret (some t)).isOk = true) →
      ∃ m, validate_secrets ns = .ok { ns with secrets := .smap m } ∧
        ∀ k, dictLookup m k = lastValue ts k := by
  intro ns ts hsec hok
  obtain ⟨m, hm, hlook⟩ := secretsLoop_lookup ts [] hok
  refine ⟨m, ?_, fun k => ?_⟩
  · simp only [validate_secrets, hsec, secretsOfTokens]
    rw [hm]
  · rw [hlook k]
    exact Option.or_none

/-- Witness for C4: three tokens with a duplicate key; the combined dict
keeps the later value for the duplicate. -/
theorem validate_secrets_spec_witness :
    ∃ m, validate_secrets { secrets := .toks ["a=1", "b=2", "a=3"] } =
        .ok { secrets := .smap m } ∧
      ∀ k, dictLookup m k = lastValue ["a=1", "b=2", "a=3"] k :=
  validate_secrets_spec { secrets := .toks ["a=1", "b=2", "a=3"] } ["a=1", "b=2", "a=3"] rfl
    (by decide)

/-! ### Idempotence lemmas for C8 -/

lemma resource_id_ne_empty (a b c d e : String) : resource_id a b c d e ≠ "" := by
  intro h
  have h1 : (resource_id a b c d e).data = [] := congrArg String.data h
  unfold resource_id at h1
  simp only [String.data_append] at h1
  iterate 9 obtain ⟨h1, -⟩ := List.append_eq_nil.mp h1
  exact absurd h1 (by decide)

lemma builtProfileId_ne_empty (subId : String) (ns : Namespace) :
    builtProfileId subId ns ≠ "" :=
  resource_id_ne_empty _ _ _ _ _

lemma idem_volume (ns ns2 : Namespace) (h : validate_volume_mount_path ns = .ok ns2) :
    validate_volume_mount_path ns2 = .ok ns2 := by
  unfold validate_volume_mount_path at h ⊢
  split at h
  · exact Except.noConfusion h
  · next hc =>
      cases Except.ok.inj h
      rw [if_neg hc]

lemma idem_secrets (ns ns2 : Namespace) (h : validate_secrets ns = .ok ns2) :
    validate_secrets ns2 = .ok ns2 := by
  unfold validate_secrets at h ⊢
  split at h
  · split at h
    · exact Except.noConfusion h
    · next m hrun =>
        cases Except.ok.inj h
        rfl
  · next hother =>
      cases Except.ok.inj h
      cases hsec : ns.secrets with
      | unset => rfl
      | toks items => exact absurd hsec (by intro hcontra; exact hother items hcontra)
      | smap m => rfl

lemma idem_gitrepo (ns ns2 : Namespace) (h : validate_gitrepo_directory ns = .ok ns2) :
    validate_gitrepo_directory ns2 = .ok ns2 := by
  unfold validate_gitrepo_directory at h ⊢
  split at h
  · exact Except.noConfusion h
  · next hc =>
      cases Except.ok.inj h
      rw [if_neg hc]

lemma idem_msi (subId : String) (listFn : String → String → List RoleDef) (ns ns2 : Namespace)
    (h : validate_msi subId listFn ns = .ok ns2) : validate_msi subId listFn ns2 = .ok ns2 := by
  unfold validate_msi at h
  simp only [] at h
  split at h
  · next hA =>
      split at h
      · exact Except.noConfusion h
      · next hc1 =>
          split at h
          · next hc2 =>
              split at h
              · exact Except.noConfusion h
              · next hc3 =>
                  split at h
                  · exact Except.noConfusion h
                  · next rid hres =>
                      cases Except.ok.inj h
                      unfold validate_msi
                      simp only []
                      rw [if_pos hA, if_neg hc1, if_pos hc2, if_neg hc3, hres]
          · next hc2 =>
              cases Except.ok.inj h
              unfold validate_msi
              simp only []
              rw [if_pos hA, if_neg hc1, if_neg hc2]
  · next hA =>
      split at h
      · exact Except.noConfusion h
      · next hc =>
          cases Except.ok.inj h
          unfold validate_msi
          simp only []
          rw [if_neg hA, if_neg hc]

lemma vnetShim_idem (ns : Namespace) : vnetShim (vnetShim ns) = vnetShim ns := by
  by_cases hcopy : (truthy ns.vnet_name && !truthy ns.vnet) = true
  · have h1 : truthy ns.vnet_name = true := by
      have h2 := hcopy
      simp only [Bool.and_eq_true] at h2
      exact h2.1
    have hsh : vnetShim ns = { ns with vnet := ns.vnet_name } := by
      unfold vnetShim
      rw [if_pos hcopy]
    rw [hsh]
    unfold vnetShim
    simp [h1]
  · have hsh : vnetShim ns = ns := by
      unfold vnetShim
      rw [if_neg hcopy]
    rw [hsh, hsh]

lemma idem_subnet (ns ns2 : Namespace) (h : validate_subnet ns = .ok ns2) :
    validate_subnet ns2 = .ok ns2 := by
  unfold validate_subnet at h
  simp only [] at h
  split at h
  · exact Except.noConfusion h
  · next hc =>
      cases Except.ok.inj h
      unfold validate_subnet
      simp only []
      rw [vnetShim_idem, if_neg hc]

lemma idem_network_profile (subId : String) (ns ns2 : Namespace)
    (h : validate_network_profile subId ns = .ok ns2)
    (hv : truthy ns2.network_profile = false ∨ isValidResourceId ns2.network_profile = true) :
    validate_network_profile subId ns2 = .ok ns2 := by
  unfold validate_network_profile at h ⊢
  split at h
  · exact Except.noConfusion h
  · next hc1 =>
      split at h
      · exact Except.noConfusion h
      · next hc2 =>
          split at h
          · next hc3 =>
              split at h
              · next hc4 =>
                  cases Except.ok.inj h
                  have hip : truthy ns.ip_address = false := by
                    cases hi : truthy ns.ip_address
                    · rfl
                    · exact absurd (by rw [hc3, hi]; rfl) hc1
                  have hdns : truthy ns.dns_name_label = false := by
                    cases hi : truthy ns.dns_name_label
                    · rfl
                    · exact absurd (by rw [hc3, hi]; rfl) hc2
                  have hne : builtProfileId subId ns ≠ "" := builtProfileId_ne_empty subId ns
                  have htr : truthy (some (builtProfileId subId ns)) = true :=
                    truthy_some_of_ne _ hne
                  have hval : isValidResourceId
                      (some (builtProfileId subId ns)) = true := by
                    rcases hv with hfalse | htrue
                    · exact absurd (htr.symm.trans hfalse) (by decide)
                    · exact htrue
                  simp [hip, hdns, htr, hval]
              · next hc4 =>
                  cases Except.ok.inj h
                  rw [if_neg hc1, if_neg hc2, if_pos hc3, if_neg hc4]
          · next hc3 =>
              cases Except.ok.inj h
              rw [if_neg hc1, if_neg hc2, if_neg hc3]

/-- Counterexample to C8 as stated: a network profile name beginning with
`'/'` makes `validate_network_profile` succeed with a constructed ID that
is *not* recognized as fully qualified, so a second run wraps the ID
again instead of being a no-op. -/
theorem validate_network_profile_not_idempotent :
    validate_network_profile "s"
        ({ network_profile := some "/p", resource_group_name := "g" } : Namespace) =
      .ok ({ network_profile := some "/subscriptions/s/resourceGroups/g/providers/Microsoft.Network/networkProfiles//p",
             resource_group_name := "g" } : Namespace) ∧
    validate_network_profile "s"
        ({ network_profile := some "/subscriptions/s/resourceGroups/g/providers/Microsoft.Network/networkProfiles//p",
           resource_group_name := "g" } : Namespace) ≠
      .ok ({ network_profile := some "/subscriptions/s/resourceGroups/g/providers/Microsoft.Network/networkProfiles//p",
             resource_group_name := "g" } : Namespace) := by
  decide

/-- **C8 (amended).** Each validator, run a second time on the namespace a
successful first run produced (with the same command context), succeeds
and leaves the namespace unchanged — except `validate_network_profile`,
which is a no-op on its own output only when the output's
`network_profile` is falsy or is recognized as a fully-qualified resource
ID (which can fail, e.g. for a profile name starting with `'/'`). -/
theorem validators_idempotent :
    ∀ (subId : String) (listFn : String → String → List RoleDef) (ns ns2 : Namespace),
      (validate_volume_mount_path ns = .ok ns2 → validate_volume_mount_path ns2 = .ok ns2) ∧
      (validate_secrets ns = .ok ns2 → validate_secrets ns2 = .ok ns2) ∧
      (validate_gitrepo_directory ns = .ok ns2 → validate_gitrepo_directory ns2 = .ok ns2) ∧
      ((validate_image ns).1 = ns ∧ validate_image (validate_image ns).1 = validate_image ns) ∧
      (validate_msi subId listFn ns = .ok ns2 → validate_msi subId listFn ns2 = .ok ns2) ∧
      (validate_subnet ns = .ok ns2 → validate_subnet ns2 = .ok ns2) ∧
      (validate_network_profile subId ns = .ok ns2 →
        (truthy ns2.network_profile = false ∨ isValidResourceId ns2.network_profile = true) →
        validate_network_profile subId ns2 = .ok ns2) :=
  fun subId listFn ns ns2 =>
    ⟨idem_volume ns ns2, idem_secrets ns ns2, idem_gitrepo ns ns2, ⟨rfl, rfl⟩,
     idem_msi subId listFn ns ns2, idem_subnet ns ns2, idem_network_profile subId ns ns2⟩

/-- Witness for C8: each validator applied twice at a concrete namespace on
which the first run succeeds. -/
theorem validators_idempotent_witness :
    validate_volume_mount_path {} = .ok ({} : Namespace) ∧
    validate_secrets { secrets := .smap [("a", "MQ==")] } =
      .ok ({ secrets := .smap [("a", "MQ==")] } : Namespace) ∧
    validate_gitrepo_directory {} = .ok ({} : Namespace) ∧
    validate_msi "sub" (fun _ _ => [⟨"RID", "Contributor"⟩])
        { assign_identity := some [], identity_scope := some "sc",
          identity_role_id := some "RID" } =
      .ok ({ assign_identity := some [], identity_scope := some "sc",
             identity_role_id := some "RID" } : Namespace) ∧
    validate_subnet { vnet := some "vn", vnet_name := some "vn", subnet := some "sn" } =
      .ok ({ vnet := some "vn", vnet_name := some "vn", subnet := some "sn" } : Namespace) ∧
    validate_network_profile "s"
        { network_profile := some "/subscriptions/s/resourceGroups/g/providers/Microsoft.Network/networkProfiles/p",
          resource_group_name := "g" } =
      .ok ({ network_profile := some "/subscriptions/s/resourceGroups/g/providers/Microsoft.Network/networkProfiles/p",
             resource_group_name := "g" } : Namespace) :=
  ⟨(validators_idempotent "sub" (fun _ _ => []) {} {}).1 (by decide),
   (validators_idempotent "sub" (fun _ _ => []) { secrets := .toks ["a=1"] }
       { secrets := .smap [("a", "MQ==")] }).2.1 (by decide),
   (validators_idempotent "sub" (fun _ _ => []) {} {}).2.2.1 (by decide),
   (validators_idempotent "sub" (fun _ _ => [⟨"RID", "Contributor"⟩])
       { assign_identity := some [], identity_scope := some "sc" }
       { assign_identity := some [], identity_scope := some "sc",
         identity_role_id := some "RID" }).2.2.2.2.1 (by decide),
   (validators_idempotent "sub" (fun _ _ => [])
       { vnet_name := some "vn", subnet := some "sn" }
       { vnet := some "vn", vnet_name := some "vn", subnet := some "sn" }).2.2.2.2.2.1
     (by decide),
   (validators_idempotent "s" (fun _ _ => [])
       { network_profile := some "p", resource_group_name := "g" }
       { network_profile := some "/subscriptions/s/resourceGroups/g/providers/Microsoft.Network/networkProfiles/p",
         resource_group_name := "g" }).2.2.2.2.2.2 (by decide) (Or.inr (by decide))⟩

end AzContainerValidators
